import Mathlib

/-!
# Verification of the CFO-Helper forecast engine

Shallow embedding of `generateForecast` and its aggregate reducers from
`src/CFOHelper.tsx`.  The source operates on JavaScript numbers; all inputs
the UI supplies are integers, and the only non-integer operations are
`Math.floor(x * 0.15)`, `Math.floor(x * 0.2)` and the final `/ 12`.  We model
the two floor-of-product operations exactly with `Int.fdiv` (floor division):
for an integer `x`, `Math.floor(x * 0.15)` computes `⌊x · 15/100⌋ = (x*15).fdiv 100`
and `Math.floor(x * 0.2)` computes `⌊x · 2/10⌋ = (x*2).fdiv 10`; the final
division by 12 is modelled in `ℚ`.
-/

/-- The fixed calendar labels (source line 36). -/
def months : List String :=
  ["Jan", "Feb", "Mar", "Apr", "May", "Jun", "Jul", "Aug", "Sep", "Oct", "Nov", "Dec"]

/-- One emitted monthly record (the `ForecastData` interface, source lines 5-11). -/
structure ForecastData where
  month : String
  revenue : Int
  expenses : Int
  cashFlow : Int
  headcount : Int
deriving Repr, DecidableEq

/-- The body of the `months.forEach` loop of `generateForecast`
(source lines 42-69), recursing over the remaining month labels and
threading the loop index and the two mutable variables
`currentCustomers` and `currentHeadcount`. -/
def forecastAux (spending pricing hiring : Int) :
    List String → Nat → Int → Int → List ForecastData
  | [], _, _, _ => []
  | m :: rest, index, currentCustomers, currentHeadcount =>
      let customerGrowth := Int.fdiv (currentCustomers * 15) 100
      let newCustomers := currentCustomers + customerGrowth
      let revenue := newCustomers * pricing
      let employeeCost := currentHeadcount * 5000
      let totalExpenses := spending + employeeCost
      let newHeadcount :=
        if index % 3 = 0 ∧ 0 < index then
          currentHeadcount + Int.fdiv (hiring * 2) 10
        else currentHeadcount
      let cashFlow := revenue - totalExpenses
      { month := m, revenue := revenue, expenses := totalExpenses,
        cashFlow := cashFlow, headcount := newHeadcount } ::
        forecastAux spending pricing hiring rest (index + 1) newCustomers newHeadcount

/-- The `generateForecast` function (source lines 35-72): customers start at
the fixed base 100, headcount starts at the `hiring` input. -/
def generateForecast (spending pricing hiring : Int) : List ForecastData :=
  forecastAux spending pricing hiring months 0 100 hiring

/-- The `totalRevenue` reducer (source line 75). -/
def totalRevenue (data : List ForecastData) : Int :=
  data.foldl (fun sum item => sum + item.revenue) 0

/-- The `totalExpenses` reducer (source line 76). -/
def totalExpenses (data : List ForecastData) : Int :=
  data.foldl (fun sum item => sum + item.expenses) 0

/-- The `netCashFlow` aggregate (source line 77). -/
def netCashFlow (data : List ForecastData) : Int :=
  totalRevenue data - totalExpenses data

/-- The `burnRate` aggregate (source line 78); JavaScript division of these
numbers is modelled as exact rational division in `ℚ`. -/
def burnRate (data : List ForecastData) : ℚ :=
  (totalExpenses data : ℚ) / 12

/-- The emitted headcount column. -/
def headcounts (spending pricing hiring : Int) : List Int :=
  (generateForecast spending pricing hiring).map (·.headcount)

/-- The internal customer-count recurrence of the loop, generalised over the
growth rate (the spec quantifies over it): `customersSeq r n` is the value of
`currentCustomers` after `n` iterations of
`customers += Math.floor(customers * rate)` starting from the fixed base 100
(source lines 39 and 44-46); the code fixes `rate = 0.15 = 15/100`. -/
def customersSeq (rate : ℚ) : Nat → Int
  | 0 => 100
  | n + 1 => customersSeq rate n + ⌊(customersSeq rate n : ℚ) * rate⌋

/-- Floor division `Int.fdiv` by a natural divisor is the rational floor of
the quotient, justifying the `Int.fdiv` model of `Math.floor(x * 0.15)` and
`Math.floor(x * 0.2)`. -/
lemma fdiv_eq_rat_floor (a : Int) (b : Nat) :
    Int.fdiv a b = ⌊(a : ℚ) / (b : ℚ)⌋ := by
  rw [Int.fdiv_eq_ediv _ (Int.natCast_nonneg b), ← Rat.floor_intCast_div_natCast]

/-- Closed form of the forecast: twelve records with the fixed customer
sequence 115, 132, …, 523, headcount stepped by `(h*2).fdiv 10` after
indices 3, 6, 9, and expenses computed from the pre-step headcount. -/
lemma generateForecast_eq (s p h : Int) :
    generateForecast s p h =
      [⟨"Jan", 115 * p, s + h * 5000, 115 * p - (s + h * 5000), h⟩,
       ⟨"Feb", 132 * p, s + h * 5000, 132 * p - (s + h * 5000), h⟩,
       ⟨"Mar", 151 * p, s + h * 5000, 151 * p - (s + h * 5000), h⟩,
       ⟨"Apr", 173 * p, s + h * 5000, 173 * p - (s + h * 5000),
          h + Int.fdiv (h * 2) 10⟩,
       ⟨"May", 198 * p, s + (h + Int.fdiv (h * 2) 10) * 5000,
          198 * p - (s + (h + Int.fdiv (h * 2) 10) * 5000),
          h + Int.fdiv (h * 2) 10⟩,
       ⟨"Jun", 227 * p, s + (h + Int.fdiv (h * 2) 10) * 5000,
          227 * p - (s + (h + Int.fdiv (h * 2) 10) * 5000),
          h + Int.fdiv (h * 2) 10⟩,
       ⟨"Jul", 261 * p, s + (h + Int.fdiv (h * 2) 10) * 5000,
          261 * p - (s + (h + Int.fdiv (h * 2) 10) * 5000),
          h + Int.fdiv (h * 2) 10 + Int.fdiv (h * 2) 10⟩,
       ⟨"Aug", 300 * p, s + (h + Int.fdiv (h * 2) 10 + Int.fdiv (h * 2) 10) * 5000,
          300 * p - (s + (h + Int.fdiv (h * 2) 10 + Int.fdiv (h * 2) 10) * 5000),
          h + Int.fdiv (h * 2) 10 + Int.fdiv (h * 2) 10⟩,
       ⟨"Sep", 345 * p, s + (h + Int.fdiv (h * 2) 10 + Int.fdiv (h * 2) 10) * 5000,
          345 * p - (s + (h + Int.fdiv (h * 2) 10 + Int.fdiv (h * 2) 10) * 5000),
          h + Int.fdiv (h * 2) 10 + Int.fdiv (h * 2) 10⟩,
       ⟨"Oct", 396 * p, s + (h + Int.fdiv (h * 2) 10 + Int.fdiv (h * 2) 10) * 5000,
          396 * p - (s + (h + Int.fdiv (h * 2) 10 + Int.fdiv (h * 2) 10) * 5000),
          h + Int.fdiv (h * 2) 10 + Int.fdiv (h * 2) 10 + Int.fdiv (h * 2) 10⟩,
       ⟨"Nov", 455 * p,
          s + (h + Int.fdiv (h * 2) 10 + Int.fdiv (h * 2) 10 + Int.fdiv (h * 2) 10) * 5000,
          455 * p -
            (s + (h + Int.fdiv (h * 2) 10 + Int.fdiv (h * 2) 10 + Int.fdiv (h * 2) 10) * 5000),
          h + Int.fdiv (h * 2) 10 + Int.fdiv (h * 2) 10 + Int.fdiv (h * 2) 10⟩,
       ⟨"Dec", 523 * p,
          s + (h + Int.fdiv (h * 2) 10 + Int.fdiv (h * 2) 10 + Int.fdiv (h * 2) 10) * 5000,
          523 * p -
            (s + (h + Int.fdiv (h * 2) 10 + Int.fdiv (h * 2) 10 + Int.fdiv (h * 2) 10) * 5000),
          h + Int.fdiv (h * 2) 10 + Int.fdiv (h * 2) 10 + Int.fdiv (h * 2) 10⟩] := by
  rfl

example : headcounts 0 0 10 = [10, 10, 10, 12, 12, 12, 14, 14, 14, 16, 16, 16] := by
  decide

example : (generateForecast 0 100 0).map (·.revenue) =
    [11500, 13200, 15100, 17300, 19800, 22700, 26100, 30000, 34500, 39600, 45500, 52300] := by
  decide

/-- The per-iteration hiring increment is non-negative when the initial
headcount is. -/
lemma hire_step_nonneg (h : Int) (hh : 0 ≤ h) : 0 ≤ Int.fdiv (h * 2) 10 := by
  rw [Int.fdiv_eq_ediv _ (by norm_num)]
  exact Int.ediv_nonneg (by omega) (by norm_num)

/-- C1: for every non-negative integer initial headcount, the emitted
headcount column is non-decreasing: it equals the initial headcount at
indices 0-2 and steps by exactly `⌊initialHeadcount · 2/10⌋` after each of
the indices 3, 6 and 9, changing nowhere else; for an initial headcount of
10 the column reads 10,10,10,12,12,12,14,14,14,16,16,16. -/
theorem headcount_schedule (s p h : Int) (hh : 0 ≤ h) :
    headcounts s p h =
      [h, h, h,
       h + Int.fdiv (h * 2) 10, h + Int.fdiv (h * 2) 10, h + Int.fdiv (h * 2) 10,
       h + Int.fdiv (h * 2) 10 + Int.fdiv (h * 2) 10,
       h + Int.fdiv (h * 2) 10 + Int.fdiv (h * 2) 10,
       h + Int.fdiv (h * 2) 10 + Int.fdiv (h * 2) 10,
       h + Int.fdiv (h * 2) 10 + Int.fdiv (h * 2) 10 + Int.fdiv (h * 2) 10,
       h + Int.fdiv (h * 2) 10 + Int.fdiv (h * 2) 10 + Int.fdiv (h * 2) 10,
       h + Int.fdiv (h * 2) 10 + Int.fdiv (h * 2) 10 + Int.fdiv (h * 2) 10] ∧
    List.Chain' (· ≤ ·) (headcounts s p h) ∧
    headcounts s p 10 = [10, 10, 10, 12, 12, 12, 14, 14, 14, 16, 16, 16] := by
  have hd := hire_step_nonneg h hh
  refine ⟨rfl, ?_, rfl⟩
  rw [headcounts, generateForecast_eq]
  simp only [List.map_cons, List.map_nil, List.chain'_cons, List.chain'_singleton, and_true]
  omega

/-- Witness for C1 at the concrete input (0, 0, 10). -/
theorem headcount_schedule_witness :
    (0 : Int) ≤ 10 ∧
    headcounts 0 0 10 = [10, 10, 10, 12, 12, 12, 14, 14, 14, 16, 16, 16] :=
  ⟨by decide, (headcount_schedule 0 0 10 (by decide)).2.2⟩

/-- C2: at indices 3, 6 and 9 the emitted expenses are computed from the
pre-hiring-event headcount — the emitted headcount minus that index's
increment `⌊initialHeadcount · 2/10⌋` — while at every other index the
expenses equal `monthlySpending + emittedHeadcount · 5000`. -/
theorem expenses_pre_increment (s p h : Int) :
    ∀ i, i < 12 →
      ((i = 3 ∨ i = 6 ∨ i = 9) →
        ((generateForecast s p h).map (·.expenses)).getD i 0 =
          s + ((headcounts s p h).getD i 0 - Int.fdiv (h * 2) 10) * 5000) ∧
      (¬(i = 3 ∨ i = 6 ∨ i = 9) →
        ((generateForecast s p h).map (·.expenses)).getD i 0 =
          s + (headcounts s p h).getD i 0 * 5000) := by
  intro i hi
  simp only [headcounts, generateForecast_eq, List.map_cons, List.map_nil]
  interval_cases i <;>
    refine ⟨fun hc => ?_, fun hc => ?_⟩ <;>
      first
        | (exfalso; omega)
        | (simp only [List.getD_cons_zero, List.getD_cons_succ]; try ring)

/-- Witness for C2 at the concrete input (1, 2, 10), index 3. -/
theorem expenses_pre_increment_witness :
    (3 : Nat) < 12 ∧
    ((generateForecast 1 2 10).map (·.expenses)).getD 3 0 =
      1 + ((headcounts 1 2 10).getD 3 0 - Int.fdiv (10 * 2) 10) * 5000 :=
  ⟨by decide, (expenses_pre_increment 1 2 10 3 (by decide)).1 (Or.inl rfl)⟩

/-- C3: for all integer inputs, `generateForecast` returns exactly 12
records whose month labels are Jan..Dec in calendar order. -/
theorem forecast_months (s p h : Int) :
    (generateForecast s p h).length = 12 ∧
    (generateForecast s p h).map (·.month) =
      ["Jan", "Feb", "Mar", "Apr", "May", "Jun",
       "Jul", "Aug", "Sep", "Oct", "Nov", "Dec"] :=
  ⟨rfl, rfl⟩

/-- C4: the aggregate `netCashFlow` equals `totalRevenue − totalExpenses`
exactly, and this value also equals the sum of the `cashFlow` fields over
the 12 records. -/
theorem netCashFlow_reconciliation (s p h : Int) :
    netCashFlow (generateForecast s p h) =
      totalRevenue (generateForecast s p h) - totalExpenses (generateForecast s p h) ∧
    netCashFlow (generateForecast s p h) =
      ((generateForecast s p h).map (·.cashFlow)).sum := by
  refine ⟨rfl, ?_⟩
  rw [netCashFlow, totalRevenue, totalExpenses, generateForecast_eq]
  simp only [List.foldl_cons, List.foldl_nil, List.map_cons, List.map_nil,
    List.sum_cons, List.sum_nil]
  ring

/-- C5: for a price per customer of 100, the first emitted record's revenue
is 11500 = (100 + ⌊100 · 15/100⌋) · 100: the 15% growth step (100 → 115
customers) is applied before revenue is computed for month 0. -/
theorem first_month_revenue (s h : Int) :
    ((generateForecast s 100 h).map (·.revenue)).getD 0 0 =
      (100 + Int.fdiv (100 * 15) 100) * 100 ∧
    ((generateForecast s 100 h).map (·.revenue)).getD 0 0 = 11500 :=
  ⟨rfl, rfl⟩

example : customersSeq (15 / 100) 1 = 115 := by
  norm_num [customersSeq]

/-- Counterexample to C6 as stated: with the non-negative growth rate 0 the
internal customer count does not move at the first step, so it is not
strictly increasing for every non-negative rate. -/
theorem customers_growth_counterexample :
    (0 : ℚ) ≤ 0 ∧ (0 : Nat) < 12 ∧ ¬ customersSeq 0 0 < customersSeq 0 1 := by
  refine ⟨le_refl 0, by norm_num, ?_⟩
  simp [customersSeq]

/-- On any growth rate of at least 1/100 the internal customer count never
drops below its starting base 100. -/
lemma customersSeq_ge_base (r : ℚ) (hr : 1 / 100 ≤ r) (n : Nat) :
    (100 : Int) ≤ customersSeq r n := by
  induction n with
  | zero => exact le_refl 100
  | succ k ih =>
      have hr0 : (0 : ℚ) ≤ r := le_trans (by norm_num) hr
      have hc : (0 : ℚ) ≤ (customersSeq r k : ℚ) := by
        exact_mod_cast le_trans (by norm_num) ih
      have hfl : (0 : Int) ≤ ⌊(customersSeq r k : ℚ) * r⌋ :=
        Int.floor_nonneg.mpr (mul_nonneg hc hr0)
      show (100 : Int) ≤ customersSeq r k + ⌊(customersSeq r k : ℚ) * r⌋
      omega

/-- C6 (amended): the internal customer count, starting at the fixed base
100 and updated by `customers += ⌊customers · rate⌋` each month, is strictly
increasing across all 12 iteration steps for any growth rate of at least
1/100 — in particular for the code's fixed rate 15/100.  (For rates in
[0, 1/100) the first increment floors to 0, so mere non-negativity of the
rate is not enough.) -/
theorem customers_strictly_increasing (r : ℚ) (hr : 1 / 100 ≤ r)
    (n : Nat) (hn : n < 12) :
    customersSeq r n < customersSeq r (n + 1) := by
  have hc := customersSeq_ge_base r hr n
  have h1 : (1 : ℚ) ≤ (customersSeq r n : ℚ) * r := by
    have hcq : (100 : ℚ) ≤ (customersSeq r n : ℚ) := by exact_mod_cast hc
    calc (1 : ℚ) = 100 * (1 / 100) := by norm_num
    _ ≤ (customersSeq r n : ℚ) * r :=
        mul_le_mul hcq hr (by norm_num) (le_trans (by norm_num) hcq)
  have hfl : (1 : Int) ≤ ⌊(customersSeq r n : ℚ) * r⌋ := by
    rw [Int.le_floor]
    exact_mod_cast h1
  show customersSeq r n < customersSeq r n + ⌊(customersSeq r n : ℚ) * r⌋
  omega

/-- Witness for the amended C6 at the code's rate 15/100 and step 0. -/
theorem customers_strictly_increasing_witness :
    (1 / 100 : ℚ) ≤ 15 / 100 ∧ (0 : Nat) < 12 ∧
    customersSeq (15 / 100) 0 < customersSeq (15 / 100) 1 :=
  ⟨by norm_num, by norm_num,
    customers_strictly_increasing (15 / 100) (by norm_num) 0 (by norm_num)⟩

/-- C7: totality — for every integer input triple, including zero and
negative values, `generateForecast` produces exactly 12 records (the model
is a total function: no division, lookup, validation or clamping occurs);
with zero spending and zero initial headcount every emitted expense is 0. -/
theorem forecast_total (s p h : Int) :
    (generateForecast s p h).length = 12 ∧
    (generateForecast (-s) p (-h)).length = 12 ∧
    (generateForecast 0 p 0).map (·.expenses) = List.replicate 12 0 :=
  ⟨rfl, rfl, rfl⟩

/-- C8: the aggregate `burnRate` is exactly the sum of the 12 expense fields
divided by 12 — exact rational division, so multiplying back by 12 recovers
`totalExpenses` with no truncation. -/
theorem burnRate_exact (s p h : Int) :
    burnRate (generateForecast s p h) =
      (totalExpenses (generateForecast s p h) : ℚ) / 12 ∧
    12 * burnRate (generateForecast s p h) =
      (totalExpenses (generateForecast s p h) : ℚ) := by
  refine ⟨rfl, ?_⟩
  rw [burnRate]
  ring

/-- C9: determinism — two calls with equal inputs yield equal record lists
and equal values of all four aggregates; the model has no hidden state. -/
theorem forecast_deterministic (s p h s2 p2 h2 : Int)
    (hs : s = s2) (hp : p = p2) (hh : h = h2) :
    generateForecast s p h = generateForecast s2 p2 h2 ∧
    totalRevenue (generateForecast s p h) = totalRevenue (generateForecast s2 p2 h2) ∧
    totalExpenses (generateForecast s p h) = totalExpenses (generateForecast s2 p2 h2) ∧
    netCashFlow (generateForecast s p h) = netCashFlow (generateForecast s2 p2 h2) ∧
    burnRate (generateForecast s p h) = burnRate (generateForecast s2 p2 h2) := by
  subst hs; subst hp; subst hh
  exact ⟨rfl, rfl, rfl, rfl, rfl⟩

/-- Witness for C9 at the UI default input (50000, 100, 10). -/
theorem forecast_deterministic_witness :
    generateForecast 50000 100 10 = generateForecast 50000 100 10 :=
  (forecast_deterministic 50000 100 10 50000 100 10 rfl rfl rfl).1

/-- C10: the revenue column is the fixed customer sequence 115, …, 523
scaled by the price per customer, independent of spending and headcount;
hence `totalRevenue = 3276 · pricePerCustomer` and scaling the price by any
integer factor scales every revenue field by that factor. -/
theorem revenue_linear (s p h : Int) :
    (generateForecast s p h).map (·.revenue) =
      [115 * p, 132 * p, 151 * p, 173 * p, 198 * p, 227 * p,
       261 * p, 300 * p, 345 * p, 396 * p, 455 * p, 523 * p] ∧
    totalRevenue (generateForecast s p h) = 3276 * p ∧
    (∀ s2 h2 : Int, (generateForecast s2 p h2).map (·.revenue) =
      (generateForecast s p h).map (·.revenue)) ∧
    (∀ k : Int, (generateForecast s (k * p) h).map (·.revenue) =
      ((generateForecast s p h).map (·.revenue)).map (fun r => k * r)) := by
  refine ⟨rfl, ?_, fun s2 h2 => rfl, fun k => ?_⟩
  · rw [totalRevenue, generateForecast_eq]
    simp only [List.foldl_cons, List.foldl_nil]
    ring
  · simp only [generateForecast_eq, List.map_cons, List.map_nil, List.cons.injEq,
      and_true]
    refine ⟨by ring, by ring, by ring, by ring, by ring, by ring,
      by ring, by ring, by ring, by ring, by ring, by ring⟩
